import Mathlib

/-!
Verification of the EV Predictive Maintenance dashboard
(`updated_app_test2.py`): a shallow embedding of its data flow —
model loading, manual/CSV input collection, prediction, warranty
decision, maintenance-interval display, and live sensor simulation —
together with theorems settling the specification's claims.

Numeric values are modelled as rationals; a data-frame row is a list of
labelled cells; a trained model is an opaque predictor that may fail
(the Python call may raise); `pyInt` is Python's `int()` truncation
toward zero.
-/

namespace EVDash

/-- A data-frame row: labelled numeric cells, as built by `pd.DataFrame`. -/
abbrev Row := List (String × ℚ)

/-- An opaque trained model artifact (`joblib` pipeline): `predict` and
`predict_proba` (its positive-class column) applied to a batch of rows,
either returning one number per row or raising, modelled as `Except`. -/
structure Model where
  predict : List Row → Except String (List ℚ)
  predict_proba : List Row → Except String (List ℚ)

/-- The process environment: which files exist on disk, and the artifact
`joblib.load` yields for a path that does exist. -/
structure Env where
  file_exists : String → Bool
  artifact : String → Model

/-- Messages the script surfaces to the operator. -/
inductive Msg where
  | sidebarError (s : String)
  | error (s : String)
  | success (s : String)
deriving DecidableEq

def RUL_MODEL_PATH : String := "RUL_pipeline.pkl"

def FAILURE_MODEL_PATH : String := "Failure_Probability_pipeline.pkl"

/-- `load_model(path)`: if the file exists, load and return the model;
otherwise show a sidebar error and return `None`.  Returns the loaded
model (or `none`) together with the messages displayed. -/
def load_model (env : Env) (path : String) : Option Model × List Msg :=
  if env.file_exists path then
    (some (env.artifact path), [])
  else
    (none, [Msg.sidebarError ("❌ Model not found: " ++ path)])

/-- The 24 manual sidebar controls, one field per widget, holding the
control's entered value (sliders / number inputs). -/
structure Controls where
  soc : ℚ
  soh : ℚ
  battery_voltage : ℚ
  battery_current : ℚ
  battery_temp : ℚ
  charge_cycles : ℚ
  motor_temp : ℚ
  motor_vibration : ℚ
  motor_torque : ℚ
  motor_rpm : ℚ
  power_consumption : ℚ
  brake_wear : ℚ
  brake_pressure : ℚ
  reg_brake_eff : ℚ
  tire_pressure : ℚ
  tire_temp : ℚ
  suspension_load : ℚ
  ambient_temp : ℚ
  ambient_humidity : ℚ
  load_weight : ℚ
  driving_speed : ℚ
  distance_traveled : ℚ
  idle_time : ℚ
  route_roughness : ℚ

/-- The feature (column) name list, in source order. -/
def features : List String :=
  ["SoC", "SoH", "Battery_Voltage", "Battery_Current", "Battery_Temperature", "Charge_Cycles",
   "Motor_Temperature", "Motor_Vibration", "Motor_Torque", "Motor_RPM", "Power_Consumption",
   "Brake_Pad_Wear", "Brake_Pressure", "Reg_Brake_Efficiency", "Tire_Pressure", "Tire_Temperature",
   "Suspension_Load", "Ambient_Temperature", "Ambient_Humidity", "Load_Weight", "Driving_Speed",
   "Distance_Traveled", "Idle_Time", "Route_Roughness"]

/-- The single manual-input row's values, in feature order, exactly as the
`pd.DataFrame([[...]])` literal builds them: `soc`, `soh` and `brake_wear`
divided by 100, every other control passed through unchanged. -/
def manual_input (c : Controls) : List ℚ :=
  [c.soc / 100, c.soh / 100, c.battery_voltage, c.battery_current, c.battery_temp, c.charge_cycles,
   c.motor_temp, c.motor_vibration, c.motor_torque, c.motor_rpm, c.power_consumption,
   c.brake_wear / 100, c.brake_pressure, c.reg_brake_eff, c.tire_pressure, c.tire_temp,
   c.suspension_load, c.ambient_temp, c.ambient_humidity, c.load_weight, c.driving_speed,
   c.distance_traveled, c.idle_time, c.route_roughness]

/-- The raw control values in feature order (what the operator entered,
before any normalization). -/
def controls_list (c : Controls) : List ℚ :=
  [c.soc, c.soh, c.battery_voltage, c.battery_current, c.battery_temp, c.charge_cycles,
   c.motor_temp, c.motor_vibration, c.motor_torque, c.motor_rpm, c.power_consumption,
   c.brake_wear, c.brake_pressure, c.reg_brake_eff, c.tire_pressure, c.tire_temp,
   c.suspension_load, c.ambient_temp, c.ambient_humidity, c.load_weight, c.driving_speed,
   c.distance_traveled, c.idle_time, c.route_roughness]

/-- The manual-input row with its column labels. -/
def manual_row (c : Controls) : Row :=
  features.zip (manual_input c)

/-- The CSV-upload tab: no file gives no data; a file that parses gives
its rows and a success banner; a parse failure is caught, reported, and
leaves `csv_data = None`. -/
def csv_upload (uploaded : Option (Except String (List Row))) :
    Option (List Row) × List Msg :=
  match uploaded with
  | none => (none, [])
  | some (Except.ok rows) => (some rows, [Msg.success "✅ CSV Loaded Successfully"])
  | some (Except.error e) => (none, [Msg.error ("❌ Error reading CSV: " ++ e)])

/-- `pd.concat([manual_input, csv_data], ignore_index=True)` when uploaded
data is present, else the manual row alone.  Concatenation appends the
uploaded rows after the manual row with no column checking. -/
def input_data (manual : Row) (csv : Option (List Row)) : List Row :=
  match csv with
  | some rows => manual :: rows
  | none => [manual]

/-- The per-row warranty decision lambda. -/
def warranty_claim_accepted (rul prob : ℚ) : String :=
  if rul < 180 ∨ prob > 1/2 then "✅ Accepted" else "❌ Rejected"

/-- `.mean()` of a numeric column. -/
def mean (xs : List ℚ) : ℚ := xs.sum / xs.length

/-- Python's `int()` on a rational: truncation toward zero. -/
def pyInt (q : ℚ) : ℤ := if 0 ≤ q then ⌊q⌋ else ⌈q⌉

/-- Everything the prediction tab renders on success: the result columns,
the two averages, the six truncated textual figures, and the bar chart's
y-values. -/
structure PredResults where
  rul : List ℚ
  failure : List ℚ
  health : List ℚ
  warranty : List String
  avg_rul : ℚ
  avg_failure : ℚ
  avg_text : ℤ
  battery_text : ℤ
  brakes_text : ℤ
  tire_text : ℤ
  cooling_text : ℤ
  motor_text : ℤ
  chart_y : List ℚ

/-- Outcome of pressing Run Prediction: either the guard was false and
nothing happened, or the broad `except` caught a failure and showed one
error banner, or the results were rendered. -/
inductive Outcome where
  | skipped
  | failed (msg : String)
  | shown (r : PredResults)

/-- The Run Prediction handler body: guard on both models being loaded,
run the two predictors inside `try`, catch any failure into one generic
error message, and otherwise derive every displayed quantity. -/
def run_prediction (rm fm : Option Model) (inp : List Row) (dist : ℚ) : Outcome :=
  match rm, fm with
  | some r, some f =>
    match r.predict inp with
    | Except.error e => Outcome.failed ("❌ Error during prediction: " ++ e)
    | Except.ok rul =>
      match f.predict_proba inp with
      | Except.error e => Outcome.failed ("❌ Error during prediction: " ++ e)
      | Except.ok fprob =>
        let avg := mean rul
        Outcome.shown
          { rul := rul
            failure := fprob
            health := fprob.map (fun p => 1 - p)
            warranty := List.zipWith warranty_claim_accepted rul fprob
            avg_rul := avg
            avg_failure := mean fprob
            avg_text := pyInt avg
            battery_text := pyInt (avg / 3)
            brakes_text := pyInt (avg / 2)
            tire_text := pyInt (dist / 1000)
            cooling_text := pyInt (avg / 4)
            motor_text := pyInt (avg / 5)
            chart_y := [avg / 3, avg / 2, dist / 1000, avg / 4, avg / 5] }
  | _, _ => Outcome.skipped

/-- The messages an outcome contributes to the page. -/
def outcome_msgs : Outcome → List Msg
  | Outcome.skipped => []
  | Outcome.failed e => [Msg.error e]
  | Outcome.shown _ => []

/-- One full top-to-bottom evaluation of the script, as a Streamlit
interaction triggers: load both models, build the manual row, process the
upload, combine the batch, and (if the button was pressed) run the
prediction handler. -/
structure ScriptOutput where
  msgs : List Msg
  data : List Row
  outcome : Outcome

def script_run (env : Env) (c : Controls)
    (uploaded : Option (Except String (List Row))) (button : Bool) : ScriptOutput :=
  let lr := load_model env RUL_MODEL_PATH
  let lf := load_model env FAILURE_MODEL_PATH
  let up := csv_upload uploaded
  let data := input_data (manual_row c) up.1
  let outcome :=
    if button then run_prediction lr.1 lf.1 data c.distance_traveled else Outcome.skipped
  { msgs := lr.2 ++ lf.2 ++ up.2 ++ outcome_msgs outcome
    data := data
    outcome := outcome }

/-- `random.uniform(a, b)` with its unit-interval source made explicit. -/
def uniform (a b u : ℚ) : ℚ := a + u * (b - a)

/-- One synthetic live sensor sample: the eight displayed fields. -/
structure LiveSample where
  Battery_Voltage : ℚ
  Battery_Current : ℚ
  Battery_Temperature : ℚ
  Motor_Temperature : ℚ
  Motor_Vibration : ℚ
  Brake_Pad_Wear : ℚ
  Tire_Pressure : ℚ
  Ambient_Temperature : ℚ

/-- The `sensor_data` dictionary built on each loop iteration, with the
eight independent `random.uniform` draws taken from source `u`. -/
def sensor_data (u : Fin 8 → ℚ) : LiveSample :=
  { Battery_Voltage := uniform 380 420 (u 0)
    Battery_Current := uniform (-50) 50 (u 1)
    Battery_Temperature := uniform 25 40 (u 2)
    Motor_Temperature := uniform 50 90 (u 3)
    Motor_Vibration := uniform (1/10) 2 (u 4)
    Brake_Pad_Wear := uniform (1/10) (9/10) (u 5)
    Tire_Pressure := uniform 28 36 (u 6)
    Ambient_Temperature := uniform 20 35 (u 7) }

/-- The live console's n-th iteration: while the toggle is on a fresh
sample is generated; with the toggle off the loop body never runs. -/
def live_step (start : Bool) (u : ℕ → Fin 8 → ℚ) (n : ℕ) : Option LiveSample :=
  if start then some (sensor_data (u n)) else none

/-- Each field of a sample lies within its documented range. -/
def sample_in_ranges (s : LiveSample) : Prop :=
  380 ≤ s.Battery_Voltage ∧ s.Battery_Voltage ≤ 420 ∧
  -50 ≤ s.Battery_Current ∧ s.Battery_Current ≤ 50 ∧
  25 ≤ s.Battery_Temperature ∧ s.Battery_Temperature ≤ 40 ∧
  50 ≤ s.Motor_Temperature ∧ s.Motor_Temperature ≤ 90 ∧
  1/10 ≤ s.Motor_Vibration ∧ s.Motor_Vibration ≤ 2 ∧
  1/10 ≤ s.Brake_Pad_Wear ∧ s.Brake_Pad_Wear ≤ 9/10 ∧
  28 ≤ s.Tire_Pressure ∧ s.Tire_Pressure ≤ 36 ∧
  20 ≤ s.Ambient_Temperature ∧ s.Ambient_Temperature ≤ 35

instance (s : LiveSample) : Decidable (sample_in_ranges s) := by
  unfold sample_in_ranges
  infer_instance

/-- Projections of a `shown` outcome, for stating display facts. -/
def shown_avg_rul : Outcome → Option ℚ
  | Outcome.shown r => some r.avg_rul
  | _ => none

def shown_brakes_text : Outcome → Option ℤ
  | Outcome.shown r => some r.brakes_text
  | _ => none

def shown_texts : Outcome → Option (ℤ × ℤ × ℤ × ℤ × ℤ × ℤ)
  | Outcome.shown r =>
      some (r.avg_text, r.battery_text, r.brakes_text, r.tire_text, r.cooling_text, r.motor_text)
  | _ => none

def shown_chart : Outcome → Option (List ℚ)
  | Outcome.shown r => some r.chart_y
  | _ => none

/-- A trained model whose two prediction calls both succeed and return a
fixed column, for concrete runs. -/
def const_model (xs : List ℚ) : Model :=
  { predict := fun _ => Except.ok xs
    predict_proba := fun _ => Except.ok xs }

/-- An environment in which no file exists on disk. -/
def env_none : Env :=
  { file_exists := fun _ => false
    artifact := fun _ => const_model [] }

/-- All 24 manual controls set to zero. -/
def zero_controls : Controls :=
  ⟨0, 0, 0, 0, 0, 0, 0, 0, 0, 0, 0, 0, 0, 0, 0, 0, 0, 0, 0, 0, 0, 0, 0, 0⟩

/-- The results record produced by a run whose RUL model returns `[300]`
and whose failure model returns `[0]`, at distance 45000. -/
def demo_results : PredResults :=
  { rul := [300]
    failure := [0]
    health := List.map (fun p => 1 - p) [(0 : ℚ)]
    warranty := List.zipWith warranty_claim_accepted [300] [0]
    avg_rul := mean [300]
    avg_failure := mean [0]
    avg_text := pyInt (mean [300])
    battery_text := pyInt (mean [300] / 3)
    brakes_text := pyInt (mean [300] / 2)
    tire_text := pyInt ((45000 : ℚ) / 1000)
    cooling_text := pyInt (mean [300] / 4)
    motor_text := pyInt (mean [300] / 5)
    chart_y := [mean [300] / 3, mean [300] / 2, (45000 : ℚ) / 1000, mean [300] / 4, mean [300] / 5] }

end EVDash

namespace EVDash

/-- C1: the warranty decision is "Accepted" exactly when RUL < 180 or the
failure probability exceeds 0.5, "Rejected" otherwise; in particular
(179, 0.1) and (300, 0.6) are accepted and (300, 0.3) is rejected. -/
theorem warranty_decision_iff (rul prob : ℚ) :
    (warranty_claim_accepted rul prob = "✅ Accepted" ↔ (rul < 180 ∨ prob > 1/2)) ∧
    (warranty_claim_accepted rul prob = "❌ Rejected" ↔ ¬(rul < 180 ∨ prob > 1/2)) ∧
    warranty_claim_accepted 179 (1/10) = "✅ Accepted" ∧
    warranty_claim_accepted 300 (6/10) = "✅ Accepted" ∧
    warranty_claim_accepted 300 (3/10) = "❌ Rejected" := by
  refine ⟨?_, ?_, ?_, ?_, ?_⟩
  · unfold warranty_claim_accepted
    split <;> simp_all
  · unfold warranty_claim_accepted
    split <;> simp_all
  · have h : ((179 : ℚ) < 180 ∨ (1/10 : ℚ) > 1/2) := by norm_num
    simp [warranty_claim_accepted, h]
    norm_num
  · have h : ((300 : ℚ) < 180 ∨ (6/10 : ℚ) > 1/2) := by norm_num
    simp [warranty_claim_accepted, h]
    norm_num
  · have h : ¬((300 : ℚ) < 180 ∨ (3/10 : ℚ) > 1/2) := by norm_num
    simp [warranty_claim_accepted, h]
    norm_num

/-- Helper: Python truncation of a nonnegative rational in `[z, z+1)`. -/
lemma pyInt_eq {q : ℚ} {z : ℤ} (h0 : 0 ≤ q) (h1 : (z : ℚ) ≤ q) (h2 : q < z + 1) :
    pyInt q = z := by
  unfold pyInt
  rw [if_pos h0, Int.floor_eq_iff]
  exact ⟨h1, h2⟩

/-- Helper: with the RUL model missing the prediction guard is false. -/
lemma run_prediction_none_left (fm : Option Model) (inp : List Row) (dist : ℚ) :
    run_prediction none fm inp dist = Outcome.skipped := by
  cases fm <;> rfl

/-- Helper: with the failure model missing the prediction guard is false. -/
lemma run_prediction_none_right (rm : Option Model) (inp : List Row) (dist : ℚ) :
    run_prediction rm none inp dist = Outcome.skipped := by
  cases rm <;> rfl

/-- Helper: `random.uniform` stays inside its interval when the unit
source does. -/
lemma uniform_le {a b u : ℚ} (hab : a ≤ b) (h0 : 0 ≤ u) (h1 : u ≤ 1) :
    a ≤ uniform a b u ∧ uniform a b u ≤ b := by
  unfold uniform
  have hba : (0 : ℚ) ≤ b - a := sub_nonneg.mpr hab
  constructor
  · nlinarith [mul_nonneg h0 hba]
  · nlinarith [mul_le_of_le_one_left hba h1]

/-- C3: of the 24 manual fields, the value placed in the single input row
equals the control's value, except at exactly the three percentage
fields SoC, SoH and Brake_Pad_Wear, where it is the control's value
divided by 100. -/
theorem manual_input_normalized (c : Controls) :
    manual_input c =
      (features.zip (controls_list c)).map
        (fun p => if p.1 = "SoC" ∨ p.1 = "SoH" ∨ p.1 = "Brake_Pad_Wear" then p.2 / 100 else p.2) ∧
    ((features.zip (controls_list c)).filter
        (fun p => decide (p.1 = "SoC" ∨ p.1 = "SoH" ∨ p.1 = "Brake_Pad_Wear"))).map Prod.fst
      = ["SoC", "SoH", "Brake_Pad_Wear"] := by
  exact ⟨rfl, rfl⟩

/-- C2 (counterexample): the displayed brake-service figure is not the
exact ratio avg/2.  A run with batch-average RUL 299 displays 149 days,
but 149 ≠ 299/2. -/
theorem displayed_interval_not_exact_ratio :
    shown_avg_rul (run_prediction (some (const_model [299])) (some (const_model [3/10]))
        [[]] 45000) = some 299 ∧
    shown_brakes_text (run_prediction (some (const_model [299])) (some (const_model [3/10]))
        [[]] 45000) = some 149 ∧
    (149 : ℚ) ≠ (299 : ℚ) / 2 := by
  have hm : mean [(299 : ℚ)] = 299 := by norm_num [mean]
  have hb : pyInt ((299 : ℚ) / 2) = 149 :=
    pyInt_eq (by norm_num) (by norm_num) (by norm_num)
  refine ⟨?_, ?_, by norm_num⟩
  · simp [run_prediction, const_model, shown_avg_rul, hm]
  · simp [run_prediction, const_model, shown_brakes_text, hm, hb]

/-- C2 (amended): the five displayed textual intervals are the `int()`
truncations of the fixed ratios — battery avg/3, brakes avg/2, tire
distance/1000, cooling avg/4, motor avg/5 — and for batch-average
RUL 300 with distance 45000 the displayed figures are exactly
battery 100, brakes 150, tire 45, cooling 75, motor 60. -/
theorem maintenance_intervals (rm fm : Option Model) (inp : List Row) (dist : ℚ)
    (r : PredResults) (h : run_prediction rm fm inp dist = Outcome.shown r) :
    (r.battery_text = pyInt (r.avg_rul / 3) ∧
     r.brakes_text = pyInt (r.avg_rul / 2) ∧
     r.tire_text = pyInt (dist / 1000) ∧
     r.cooling_text = pyInt (r.avg_rul / 4) ∧
     r.motor_text = pyInt (r.avg_rul / 5)) ∧
    shown_texts (run_prediction (some (const_model [300])) (some (const_model [0])) [[]] 45000)
      = some (300, 100, 150, 45, 75, 60) := by
  constructor
  · cases rm with
    | none => simp [run_prediction] at h
    | some m =>
      cases fm with
      | none => simp [run_prediction] at h
      | some f =>
        cases hp : m.predict inp with
        | error e => simp [run_prediction, hp] at h
        | ok rul =>
          cases hq : f.predict_proba inp with
          | error e => simp [run_prediction, hp, hq] at h
          | ok fprob =>
            simp [run_prediction, hp, hq] at h
            subst h
            exact ⟨rfl, rfl, rfl, rfl, rfl⟩
  · have hm : mean [(300 : ℚ)] = 300 := by norm_num [mean]
    have h0 : pyInt ((300 : ℚ)) = 300 := pyInt_eq (by norm_num) (by norm_num) (by norm_num)
    have h3 : pyInt ((300 : ℚ) / 3) = 100 := pyInt_eq (by norm_num) (by norm_num) (by norm_num)
    have h2 : pyInt ((300 : ℚ) / 2) = 150 := pyInt_eq (by norm_num) (by norm_num) (by norm_num)
    have ht : pyInt ((45000 : ℚ) / 1000) = 45 := pyInt_eq (by norm_num) (by norm_num) (by norm_num)
    have h4 : pyInt ((300 : ℚ) / 4) = 75 := pyInt_eq (by norm_num) (by norm_num) (by norm_num)
    have h5 : pyInt ((300 : ℚ) / 5) = 60 := pyInt_eq (by norm_num) (by norm_num) (by norm_num)
    simp [run_prediction, const_model, shown_texts, hm, h0, h3, h2, ht, h4, h5]

/-- C2 witness: the amended interval facts at a concrete successful run. -/
theorem maintenance_intervals_witness :
    demo_results.battery_text = pyInt (demo_results.avg_rul / 3) ∧
    demo_results.brakes_text = pyInt (demo_results.avg_rul / 2) ∧
    demo_results.tire_text = pyInt ((45000 : ℚ) / 1000) ∧
    demo_results.cooling_text = pyInt (demo_results.avg_rul / 4) ∧
    demo_results.motor_text = pyInt (demo_results.avg_rul / 5) :=
  (maintenance_intervals (some (const_model [300])) (some (const_model [0])) [[]] 45000
    demo_results rfl).1

/-- C9: the textual average-RUL metric and the five textual intervals are
`int()` truncations (toward zero) of the exact quantities, while the bar
chart plots the untruncated ratios; with batch-average RUL 299 the brake
figure displays 149 while the chart plots 299/2 = 149.5. -/
theorem text_truncated_chart_exact (rm fm : Option Model) (inp : List Row) (dist : ℚ)
    (r : PredResults) (h : run_prediction rm fm inp dist = Outcome.shown r) :
    (r.avg_text = pyInt r.avg_rul ∧
     r.battery_text = pyInt (r.avg_rul / 3) ∧
     r.brakes_text = pyInt (r.avg_rul / 2) ∧
     r.tire_text = pyInt (dist / 1000) ∧
     r.cooling_text = pyInt (r.avg_rul / 4) ∧
     r.motor_text = pyInt (r.avg_rul / 5) ∧
     r.chart_y = [r.avg_rul / 3, r.avg_rul / 2, dist / 1000, r.avg_rul / 4, r.avg_rul / 5]) ∧
    shown_brakes_text (run_prediction (some (const_model [299])) (some (const_model [0]))
        [[]] 45000) = some 149 ∧
    shown_chart (run_prediction (some (const_model [299])) (some (const_model [0]))
        [[]] 45000)
      = some [299 / 3, (299 : ℚ) / 2, 45, 299 / 4, 299 / 5] ∧
    (299 : ℚ) / 2 = 149 + 1 / 2 := by
  constructor
  · cases rm with
    | none => simp [run_prediction] at h
    | some m =>
      cases fm with
      | none => simp [run_prediction] at h
      | some f =>
        cases hp : m.predict inp with
        | error e => simp [run_prediction, hp] at h
        | ok rul =>
          cases hq : f.predict_proba inp with
          | error e => simp [run_prediction, hp, hq] at h
          | ok fprob =>
            simp [run_prediction, hp, hq] at h
            subst h
            exact ⟨rfl, rfl, rfl, rfl, rfl, rfl, rfl⟩
  · have hm : mean [(299 : ℚ)] = 299 := by norm_num [mean]
    have hb : pyInt ((299 : ℚ) / 2) = 149 :=
      pyInt_eq (by norm_num) (by norm_num) (by norm_num)
    refine ⟨?_, ?_, by norm_num⟩
    · simp [run_prediction, const_model, shown_brakes_text, hm, hb]
    · simp [run_prediction, const_model, shown_chart, hm]
      norm_num

/-- C9 witness: the truncation/chart relation at a concrete run. -/
theorem text_truncated_chart_exact_witness :
    demo_results.avg_text = pyInt demo_results.avg_rul ∧
    demo_results.battery_text = pyInt (demo_results.avg_rul / 3) ∧
    demo_results.brakes_text = pyInt (demo_results.avg_rul / 2) ∧
    demo_results.tire_text = pyInt ((45000 : ℚ) / 1000) ∧
    demo_results.cooling_text = pyInt (demo_results.avg_rul / 4) ∧
    demo_results.motor_text = pyInt (demo_results.avg_rul / 5) ∧
    demo_results.chart_y = [demo_results.avg_rul / 3, demo_results.avg_rul / 2,
      (45000 : ℚ) / 1000, demo_results.avg_rul / 4, demo_results.avg_rul / 5] :=
  (text_truncated_chart_exact (some (const_model [300])) (some (const_model [0])) [[]] 45000
    demo_results rfl).1

/-- C4: with either model file missing, the interaction that presses the
run button (a full script re-evaluation) surfaces a model-not-found
error to the operator, and the prediction handler is skipped — nothing
runs that could raise, so no exception escapes. -/
theorem missing_model_no_crash (env : Env) (c : Controls)
    (up : Option (Except String (List Row)))
    (h : env.file_exists RUL_MODEL_PATH = false ∨ env.file_exists FAILURE_MODEL_PATH = false) :
    (∃ p, Msg.sidebarError ("❌ Model not found: " ++ p) ∈ (script_run env c up true).msgs) ∧
    (script_run env c up true).outcome = Outcome.skipped := by
  rcases h with h | h
  · constructor
    · exact ⟨RUL_MODEL_PATH, by simp [script_run, load_model, h]⟩
    · simp [script_run, load_model, h, run_prediction_none_left]
  · constructor
    · exact ⟨FAILURE_MODEL_PATH, by simp [script_run, load_model, h]⟩
    · simp [script_run, load_model, h, run_prediction_none_right]

/-- C4 witness: the missing-model behavior at a concrete environment with
no files on disk. -/
theorem missing_model_no_crash_witness :
    (∃ p, Msg.sidebarError ("❌ Model not found: " ++ p)
        ∈ (script_run env_none zero_controls none true).msgs) ∧
    (script_run env_none zero_controls none true).outcome = Outcome.skipped :=
  missing_model_no_crash env_none zero_controls none (Or.inl rfl)

/-- C5: the model loader always returns either the loaded predictor or
`None`; when the file does not exist it returns `None` and surfaces the
warning, and the script still assembles the input batch afterwards
(execution is not aborted). -/
theorem load_model_contract (env : Env) (path : String) :
    ((load_model env path).1 = some (env.artifact path) ∨ (load_model env path).1 = none) ∧
    (env.file_exists path = false →
      (load_model env path).1 = none ∧
      Msg.sidebarError ("❌ Model not found: " ++ path) ∈ (load_model env path).2) ∧
    (env.file_exists path = false → ∀ c up b,
      (script_run env c up b).data = input_data (manual_row c) (csv_upload up).1) := by
  refine ⟨?_, ?_, ?_⟩
  · cases hf : env.file_exists path <;> simp [load_model, hf]
  · intro h
    simp [load_model, h]
  · intro _ c up b
    simp [script_run]

/-- C5 witness: the loader contract at a concrete empty environment. -/
theorem load_model_contract_witness :
    (load_model env_none RUL_MODEL_PATH).1 = none ∧
    Msg.sidebarError ("❌ Model not found: " ++ RUL_MODEL_PATH)
      ∈ (load_model env_none RUL_MODEL_PATH).2 :=
  (load_model_contract env_none RUL_MODEL_PATH).2.1 rfl

/-- C6: an upload that fails to parse is caught and reported, and the
combined batch handed to prediction is exactly the manual-only row. -/
theorem csv_error_fallback (env : Env) (c : Controls) (e : String) (b : Bool) :
    Msg.error ("❌ Error reading CSV: " ++ e)
      ∈ (script_run env c (some (Except.error e)) b).msgs ∧
    (script_run env c (some (Except.error e)) b).data = [manual_row c] := by
  constructor
  · simp [script_run, csv_upload]
  · simp [script_run, csv_upload, input_data]

/-- C7: with uploaded data present the combined batch is the manual row
followed by the uploaded rows — manual first at index 0 — for every
uploaded row list whatsoever (no column-presence validation). -/
theorem upload_concat_order (env : Env) (c : Controls) (rows : List Row) (b : Bool) :
    (script_run env c (some (Except.ok rows)) b).data = manual_row c :: rows ∧
    ((script_run env c (some (Except.ok rows)) b).data).head? = some (manual_row c) := by
  constructor <;> simp [script_run, csv_upload, input_data]

/-- C8: every sample the live console generates while monitoring is
enabled has each of its eight fields inside its documented range —
for every iteration index, hence in particular for 100 or more
samples — provided the underlying `random()` source stays in [0,1]. -/
theorem live_sensor_ranges (start : Bool) (u : ℕ → Fin 8 → ℚ)
    (hu : ∀ n i, 0 ≤ u n i ∧ u n i ≤ 1) (n : ℕ) (s : LiveSample)
    (hs : live_step start u n = some s) :
    sample_in_ranges s := by
  cases start with
  | false => simp [live_step] at hs
  | true =>
    simp [live_step] at hs
    subst hs
    unfold sample_in_ranges sensor_data
    refine ⟨?_, ?_, ?_, ?_, ?_, ?_, ?_, ?_, ?_, ?_, ?_, ?_, ?_, ?_, ?_, ?_⟩
    · exact (uniform_le (by norm_num) (hu n 0).1 (hu n 0).2).1
    · exact (uniform_le (by norm_num) (hu n 0).1 (hu n 0).2).2
    · exact (uniform_le (by norm_num) (hu n 1).1 (hu n 1).2).1
    · exact (uniform_le (by norm_num) (hu n 1).1 (hu n 1).2).2
    · exact (uniform_le (by norm_num) (hu n 2).1 (hu n 2).2).1
    · exact (uniform_le (by norm_num) (hu n 2).1 (hu n 2).2).2
    · exact (uniform_le (by norm_num) (hu n 3).1 (hu n 3).2).1
    · exact (uniform_le (by norm_num) (hu n 3).1 (hu n 3).2).2
    · exact (uniform_le (by norm_num) (hu n 4).1 (hu n 4).2).1
    · exact (uniform_le (by norm_num) (hu n 4).1 (hu n 4).2).2
    · exact (uniform_le (by norm_num) (hu n 5).1 (hu n 5).2).1
    · exact (uniform_le (by norm_num) (hu n 5).1 (hu n 5).2).2
    · exact (uniform_le (by norm_num) (hu n 6).1 (hu n 6).2).1
    · exact (uniform_le (by norm_num) (hu n 6).1 (hu n 6).2).2
    · exact (uniform_le (by norm_num) (hu n 7).1 (hu n 7).2).1
    · exact (uniform_le (by norm_num) (hu n 7).1 (hu n 7).2).2

/-- C8 witness: a concrete mid-range sample lies inside every range. -/
theorem live_sensor_ranges_witness :
    sample_in_ranges (sensor_data (fun _ => 1/2)) :=
  live_sensor_ranges true (fun _ _ => 1/2)
    (fun _ _ => ⟨by norm_num, by norm_num⟩) 0 (sensor_data (fun _ => 1/2)) rfl

end EVDash
